import Mathlib

/-!
Verification development for the HawkEye inspection frontend.

This file gives a shallow embedding, in Lean 4, of the batch-approval
capture construction (function handleAprovarLote of the results page),
of the rate helper functions of the same page (getOccupancyRate,
getEfficiencyRate, getPinQualityRate, getShaftQualityRate), and of the
validity-percentage computations of the dashboard (getDashboardMetrics
and the KPI cards component), and proves properties of these embeddings.

Modelling conventions:
  - JavaScript numbers holding counts are modelled as Nat; numbers holding
    fractional measurements or percentages are modelled as Rat, i.e. IEEE
    double arithmetic is idealised as exact rational arithmetic.
  - Values that the code guards with optional chaining (the question-mark
    dot operator) or that the UI treats as possibly absent are modelled as
    Option; the JavaScript idiom (x || 0) on such a value is Option.getD 0.
  - toFixed(d) of a nonnegative number, as specified by ECMA-262 (nearest
    integer numerator over ten to the d, larger one on ties), is modelled
    as the rational with numerator floor(x * 10 ^ d + 1 / 2) over 10 ^ d.
-/

namespace HawkEye

/-- Occupancy status of one compartment box, the string field
status of a box in boxes_info ("empty" or "single" or "multiple"). -/
inductive BoxStatus
  | empty
  | single
  | multiple
deriving DecidableEq, Repr

/-- One compartment box as produced by the pipeline and stored in
boxes_info.boxes: bounding box, pin count and occupancy status. -/
structure Box where
  x : Int
  y : Int
  width : Int
  height : Int
  pins_count : Nat
  status : BoxStatus
deriving DecidableEq, Repr

/-- The boxes_info field of a processed image. -/
structure BoxesInfo where
  total_boxes : Nat
  empty_boxes : Nat
  single_pin_boxes : Nat
  multiple_pins_boxes : Nat
  boxes : List Box
deriving DecidableEq, Repr

/-- The details sub-object of a pin classification. -/
structure PinDetails where
  pins_ok : Nat
  pins_wrong_color : Nat
  pins_damaged_yellow : Nat
  pins_double_defect : Nat
deriving DecidableEq, Repr

/-- The pin_classification field of a processed image. -/
structure PinClassification where
  total_pins : Nat
  valid_pins : Nat
  invalid_pins : Nat
  critical_pins : Nat
  damaged_threshold : Rat
  average_area : Rat
  details : PinDetails
deriving DecidableEq, Repr

/-- One detected shaft of a shaft classification. -/
structure ShaftData where
  area : Rat
  length : Rat
  width : Rat
  straightness : Rat
  inclination_rad : Rat
  approved : Bool
  rejected_secondary : Bool
deriving DecidableEq, Repr

/-- The shaft_classification field of a processed image. -/
structure ShaftClassification where
  total_shafts : Nat
  approved_shafts : Nat
  rejected_shafts : Nat
  shafts : List ShaftData
deriving DecidableEq, Repr

/-- A processed image as loaded by the results page. The
pin_classification and shaft_classification fields are Option because
the page guards every access to them (optional chaining in
handleAprovarLote, presence checks in the detail tabs). -/
structure ProcessedImage where
  filename : String
  sha256 : String
  timestamp : String
  original_url : String
  areas_url : String
  pins_url : String
  boxes_url : String
  shafts_url : String
  areas_count : Nat
  pins_count : Nat
  boxes_info : BoxesInfo
  pin_classification : Option PinClassification
  shaft_classification : Option ShaftClassification
deriving DecidableEq, Repr

/-- Ceiling of the square root of a natural number, the value of
Math.ceil(Math.sqrt(n)) for a natural n (Math.sqrt is correctly rounded,
so for the magnitudes involved the double computation agrees with the
exact ceiling). -/
def ceilSqrt (n : Nat) : Nat :=
  if Nat.sqrt n * Nat.sqrt n = n then Nat.sqrt n else Nat.sqrt n + 1

/-- One element of the compartments array built by handleAprovarLote. -/
structure CompartmentRecord where
  grid_row : Nat
  grid_col : Nat
  bbox_x : Int
  bbox_y : Int
  bbox_width : Int
  bbox_height : Int
  pins_count : Nat
  is_valid : Bool
  has_defect : Bool
deriving DecidableEq, Repr

/-- The compartment built for the box at a given 0-based index, from the
body of the boxes map in handleAprovarLote: cols is
Math.ceil(Math.sqrt(total_boxes)), grid_row is Math.floor(index / cols),
grid_col is index % cols, is_valid is (status === "single") and
has_defect is (status !== "single"). -/
def mkCompartment (total_boxes : Nat) (index : Nat) (box : Box) : CompartmentRecord :=
  let cols := ceilSqrt total_boxes
  { grid_row := index / cols
    grid_col := index % cols
    bbox_x := box.x
    bbox_y := box.y
    bbox_width := box.width
    bbox_height := box.height
    pins_count := box.pins_count
    is_valid := decide (box.status = BoxStatus.single)
    has_defect := decide (box.status ≠ BoxStatus.single) }

/-- Index-carrying traversal of the box list, the
img.boxes_info.boxes.map((box, index) => ...) call. -/
def buildCompartmentsFrom (total_boxes : Nat) : Nat → List Box → List CompartmentRecord
  | _, [] => []
  | i, b :: bs => mkCompartment total_boxes i b :: buildCompartmentsFrom total_boxes (i + 1) bs

/-- The compartments array of one capture. -/
def buildCompartments (info : BoxesInfo) : List CompartmentRecord :=
  buildCompartmentsFrom info.total_boxes 0 info.boxes

/-- extractPath from handleAprovarLote: split the url on the
"/pipeline-temp/" marker and keep the second part when the marker is
present, otherwise keep the url unchanged. -/
def extractPath (url : String) : String :=
  let parts := url.splitOn "/pipeline-temp/"
  if parts.length > 1 then parts.getD 1 "" else url

/-- One element of the captures array sent to the batch-create API. -/
structure CaptureRecord where
  filename : String
  sha256 : String
  original_uri : String
  processed_uri : String
  processed_areas_uri : String
  processed_pins_uri : String
  processed_shaft_uri : String
  is_valid : Bool
  areas_detected : Nat
  pins_detected : Nat
  defects_count : Nat
  has_missing_pins : Bool
  has_extra_pins : Bool
  has_damaged_pins : Bool
  has_wrong_color_pins : Bool
  has_structure_damage : Bool
  has_shaft_defects : Bool
  compartments : List CompartmentRecord
deriving DecidableEq, Repr

/-- The empty_boxes count used by handleAprovarLote (the || 0 on a
present Nat is the identity). -/
def emptyBoxesOf (img : ProcessedImage) : Nat :=
  img.boxes_info.empty_boxes

/-- The multiple_pins_boxes count used by handleAprovarLote. -/
def multipleBoxesOf (img : ProcessedImage) : Nat :=
  img.boxes_info.multiple_pins_boxes

/-- img.pin_classification?.invalid_pins || 0. -/
def invalidPinsOf (img : ProcessedImage) : Nat :=
  (img.pin_classification.map PinClassification.invalid_pins).getD 0

/-- img.pin_classification?.critical_pins || 0. -/
def criticalPinsOf (img : ProcessedImage) : Nat :=
  (img.pin_classification.map PinClassification.critical_pins).getD 0

/-- img.shaft_classification?.rejected_shafts || 0. -/
def rejectedShaftsOf (img : ProcessedImage) : Nat :=
  (img.shaft_classification.map ShaftClassification.rejected_shafts).getD 0

/-- img.pin_classification?.details?.pins_damaged_yellow || 0. -/
def damagedYellowOf (img : ProcessedImage) : Nat :=
  (img.pin_classification.map (fun p => p.details.pins_damaged_yellow)).getD 0

/-- img.pin_classification?.details?.pins_wrong_color || 0. -/
def wrongColorOf (img : ProcessedImage) : Nat :=
  (img.pin_classification.map (fun p => p.details.pins_wrong_color)).getD 0

/-- The capture record built for one processed image inside the
images.map of handleAprovarLote. -/
def buildCapture (img : ProcessedImage) : CaptureRecord :=
  let emptyBoxes := emptyBoxesOf img
  let multipleBoxes := multipleBoxesOf img
  let invalidPins := invalidPinsOf img
  let criticalPins := criticalPinsOf img
  let rejectedShafts := rejectedShaftsOf img
  let totalDefects := emptyBoxes + multipleBoxes + invalidPins + criticalPins + rejectedShafts
  let isValid := decide (totalDefects = 0)
  { filename := img.filename
    sha256 := img.sha256
    original_uri := extractPath img.original_url
    processed_uri := extractPath img.boxes_url
    processed_areas_uri := extractPath img.areas_url
    processed_pins_uri := extractPath img.pins_url
    processed_shaft_uri := extractPath img.shafts_url
    is_valid := isValid
    areas_detected := img.areas_count
    pins_detected := img.pins_count
    defects_count := totalDefects
    has_missing_pins := decide (emptyBoxes > 0)
    has_extra_pins := decide (multipleBoxes > 0)
    has_damaged_pins := decide (damagedYellowOf img > 0)
    has_wrong_color_pins := decide (wrongColorOf img > 0)
    has_structure_damage := false
    has_shaft_defects := decide (rejectedShafts > 0)
    compartments := buildCompartments img.boxes_info }

/-- The capturesData array: images.map over buildCapture. -/
def capturesData (images : List ProcessedImage) : List CaptureRecord :=
  images.map buildCapture

/-- Floor of a rational as an integer, written with floored integer
division so that it evaluates by kernel reduction. -/
def ratFloor (q : Rat) : Int :=
  Int.fdiv q.num (q.den : Int)

/-- toFixed(1) of a number, idealised over the rationals: the nearest
multiple of one tenth, larger one on ties. -/
def round1 (q : Rat) : Rat :=
  ((ratFloor (q * 10 + 1 / 2) : Int) : Rat) / 10

/-- toFixed(2) of a number, idealised over the rationals: the nearest
multiple of one hundredth, larger one on ties. -/
def round2 (q : Rat) : Rat :=
  ((ratFloor (q * 100 + 1 / 2) : Int) : Rat) / 100

/-- getOccupancyRate from the results page: 0 when boxesInfo is absent
or total_boxes is 0, otherwise
((single_pin_boxes + multiple_pins_boxes) / total_boxes * 100).toFixed(1). -/
def getOccupancyRate : Option BoxesInfo → Rat
  | none => 0
  | some bi =>
    if bi.total_boxes = 0 then 0
    else round1 (((bi.single_pin_boxes : Rat) + (bi.multiple_pins_boxes : Rat))
      / (bi.total_boxes : Rat) * 100)

/-- getEfficiencyRate from the results page: 0 when boxesInfo is absent
or total_boxes is 0, otherwise
(single_pin_boxes / total_boxes * 100).toFixed(1). -/
def getEfficiencyRate : Option BoxesInfo → Rat
  | none => 0
  | some bi =>
    if bi.total_boxes = 0 then 0
    else round1 ((bi.single_pin_boxes : Rat) / (bi.total_boxes : Rat) * 100)

/-- getPinQualityRate from the results page: 0 when pinClass is absent
or total_pins is 0, otherwise (valid_pins / total_pins * 100).toFixed(1). -/
def getPinQualityRate : Option PinClassification → Rat
  | none => 0
  | some pc =>
    if pc.total_pins = 0 then 0
    else round1 ((pc.valid_pins : Rat) / (pc.total_pins : Rat) * 100)

/-- getShaftQualityRate from the results page: 0 when shaftClass is
absent or total_shafts is 0, otherwise
(approved_shafts / total_shafts * 100).toFixed(1). -/
def getShaftQualityRate : Option ShaftClassification → Rat
  | none => 0
  | some sc =>
    if sc.total_shafts = 0 then 0
    else round1 ((sc.approved_shafts : Rat) / (sc.total_shafts : Rat) * 100)

/-- A capture row as read back from the captures table by the dashboard;
only the is_valid column (boolean or null) is read by the validity
computations. -/
structure DbCapture where
  is_valid : Option Bool
deriving DecidableEq, Repr

/-- captures.filter(c => c.is_valid).length: a row counts as valid when
its is_valid column is truthy, i.e. present and true. -/
def countValid (cs : List DbCapture) : Nat :=
  (cs.filter fun c => c.is_valid.getD false).length

/-- validPercentage of getDashboardMetrics:
totalImages > 0 ? (validImages / totalImages) * 100 : 0. -/
def validPercentage (cs : List DbCapture) : Rat :=
  if cs.length > 0 then ((countValid cs : Rat) / (cs.length : Rat)) * 100 else 0

/-- The value shown for valid captures in the validityDistribution of
getDashboardMetrics: parseFloat(validPercentage.toFixed(1)). -/
def dashValidValue (cs : List DbCapture) : Rat :=
  round1 (validPercentage cs)

/-- successRate of the KPI cards component:
totalImages > 0 ? ((validImages / totalImages) * 100).toFixed(2) : 0. -/
def kpiSuccessRate (validImages totalImages : Nat) : Rat :=
  if totalImages > 0 then round2 (((validImages : Rat) / (totalImages : Rat)) * 100) else 0

/-! ### Concrete inputs used by witness and counterexample theorems -/

/-- Box list of the six-compartment scenario of the specification: one
empty box, one box with 2 pins, four boxes with 1 pin each. -/
def scenarioBoxes : List Box :=
  [ { x := 0, y := 0, width := 10, height := 10, pins_count := 0, status := BoxStatus.empty }
  , { x := 10, y := 0, width := 10, height := 10, pins_count := 2, status := BoxStatus.multiple }
  , { x := 20, y := 0, width := 10, height := 10, pins_count := 1, status := BoxStatus.single }
  , { x := 0, y := 10, width := 10, height := 10, pins_count := 1, status := BoxStatus.single }
  , { x := 10, y := 10, width := 10, height := 10, pins_count := 1, status := BoxStatus.single }
  , { x := 20, y := 10, width := 10, height := 10, pins_count := 1, status := BoxStatus.single } ]

/-- boxes_info of the six-compartment scenario. -/
def scenarioBoxesInfo : BoxesInfo :=
  { total_boxes := 6
    empty_boxes := 1
    single_pin_boxes := 4
    multiple_pins_boxes := 1
    boxes := scenarioBoxes }

/-- pin_classification of the six-compartment scenario: 4 pins, all ok. -/
def scenarioPinClassification : PinClassification :=
  { total_pins := 4
    valid_pins := 4
    invalid_pins := 0
    critical_pins := 0
    damaged_threshold := 30
    average_area := 50
    details := { pins_ok := 4, pins_wrong_color := 0, pins_damaged_yellow := 0, pins_double_defect := 0 } }

/-- The six-compartment scenario image of the specification: zero shafts,
modelled with shaft classification data absent. -/
def scenarioImage : ProcessedImage :=
  { filename := "tray01.jpg"
    sha256 := "d41d8cd98f"
    timestamp := "20250101-000000"
    original_url := "https://store.example/pipeline-temp/run1/original/tray01.jpg"
    areas_url := "https://store.example/pipeline-temp/run1/areas/tray01.jpg"
    pins_url := "https://store.example/pipeline-temp/run1/pins/tray01.jpg"
    boxes_url := "https://store.example/pipeline-temp/run1/boxes/tray01.jpg"
    shafts_url := "https://store.example/pipeline-temp/run1/shafts/tray01.jpg"
    areas_count := 6
    pins_count := 4
    boxes_info := scenarioBoxesInfo
    pin_classification := some scenarioPinClassification
    shaft_classification := none }

/-- A box at a given grid position with one pin, for the nine-box image. -/
def unitBox (px py : Int) : Box :=
  { x := px, y := py, width := 10, height := 10, pins_count := 1, status := BoxStatus.single }

/-- An image with nine compartment boxes, used to check the grid mapping
at total_boxes = 9. -/
def nineBoxImage : ProcessedImage :=
  { filename := "tray09.jpg"
    sha256 := "9e107d9d37"
    timestamp := "20250101-000100"
    original_url := "https://store.example/pipeline-temp/run1/original/tray09.jpg"
    areas_url := "https://store.example/pipeline-temp/run1/areas/tray09.jpg"
    pins_url := "https://store.example/pipeline-temp/run1/pins/tray09.jpg"
    boxes_url := "https://store.example/pipeline-temp/run1/boxes/tray09.jpg"
    shafts_url := "https://store.example/pipeline-temp/run1/shafts/tray09.jpg"
    areas_count := 9
    pins_count := 9
    boxes_info :=
      { total_boxes := 9
        empty_boxes := 0
        single_pin_boxes := 9
        multiple_pins_boxes := 0
        boxes :=
          [ unitBox 0 0, unitBox 10 0, unitBox 20 0
          , unitBox 0 10, unitBox 10 10, unitBox 20 10
          , unitBox 0 20, unitBox 10 20, unitBox 20 20 ] }
    pin_classification := none
    shaft_classification :=
      some { total_shafts := 0, approved_shafts := 0, rejected_shafts := 0, shafts := [] } }

/-- Three capture rows, one valid and two invalid, on which the KPI
percentage needs two decimal places. -/
def thirdValidCaptures : List DbCapture :=
  [ { is_valid := some true }, { is_valid := some false }, { is_valid := some false } ]

/-- boxes_info with 3 compartments, 1 of them occupied by a single pin,
on which the occupancy ratio is not representable with one decimal. -/
def thirdBoxesInfo : BoxesInfo :=
  { total_boxes := 3
    empty_boxes := 2
    single_pin_boxes := 1
    multiple_pins_boxes := 0
    boxes := [] }

/-- A shaft classification with 2 shafts of which 1 is approved. -/
def halfShaftClassification : ShaftClassification :=
  { total_shafts := 2, approved_shafts := 1, rejected_shafts := 1, shafts := [] }

/-! ### Helper lemmas -/

/-- ratFloor agrees with the floor of Mathlib. -/
theorem ratFloor_eq_floor (q : Rat) : ratFloor q = Int.floor q := by
  rw [ratFloor, Rat.floor_def, Int.fdiv_eq_ediv _ (by positivity)]

/-- ceilSqrt n is the least k with n ≤ k * k: it is the exact ceiling of
the real square root of n, which justifies reading
Math.ceil(Math.sqrt(n)) as ceilSqrt. -/
theorem ceilSqrt_isLeast (n : Nat) :
    n ≤ ceilSqrt n * ceilSqrt n ∧ ∀ k : Nat, n ≤ k * k → ceilSqrt n ≤ k := by
  unfold ceilSqrt
  by_cases h : Nat.sqrt n * Nat.sqrt n = n
  · rw [if_pos h]
    refine ⟨Nat.le_of_eq h.symm, fun k hk => ?_⟩
    have h2 := Nat.sqrt_le_sqrt hk
    rwa [Nat.sqrt_eq] at h2
  · rw [if_neg h]
    refine ⟨Nat.le_of_lt (Nat.lt_succ_sqrt n), fun k hk => ?_⟩
    by_contra hc
    push_neg at hc
    have h3 : k ≤ Nat.sqrt n := by omega
    have h4 : k * k ≤ Nat.sqrt n * Nat.sqrt n := Nat.mul_le_mul h3 h3
    have h5 := Nat.sqrt_le n
    exact h (Nat.le_antisymm h5 (hk.trans h4))

/-- The square-root ceiling of 9 is 3 (Nat.sqrt is defined by
well-founded recursion, so this is proved through Nat.sqrt_eq rather
than by evaluation). -/
theorem ceilSqrt_nine : ceilSqrt 9 = 3 := by
  have h : Nat.sqrt 9 = 3 := by simpa using Nat.sqrt_eq 3
  rw [ceilSqrt, h]
  norm_num

/-- The compartment list is as long as the box list it is built from. -/
theorem buildCompartmentsFrom_length (t : Nat) :
    ∀ (s : Nat) (bs : List Box), (buildCompartmentsFrom t s bs).length = bs.length
  | _, [] => rfl
  | s, _ :: bs => congrArg Nat.succ (buildCompartmentsFrom_length t (s + 1) bs)

/-- Element description of the index-carrying traversal. -/
theorem buildCompartmentsFrom_getElem (t : Nat) :
    ∀ (bs : List Box) (s i : Nat),
      (buildCompartmentsFrom t s bs)[i]? = (bs[i]?).map (mkCompartment t (s + i))
  | [], s, i => by simp [buildCompartmentsFrom]
  | b :: bs, s, 0 => by simp [buildCompartmentsFrom]
  | b :: bs, s, i + 1 => by
    have ih := buildCompartmentsFrom_getElem t bs (s + 1) i
    simp only [buildCompartmentsFrom, List.getElem?_cons_succ]
    rw [ih, Nat.add_right_comm s 1 i]
    rfl

/-- The compartments array has one entry per box. -/
theorem buildCompartments_length (info : BoxesInfo) :
    (buildCompartments info).length = info.boxes.length :=
  buildCompartmentsFrom_length info.total_boxes 0 info.boxes

/-- The compartment at index i is built from the box at index i. -/
theorem buildCompartments_get (info : BoxesInfo) (i : Nat)
    (h1 : i < (buildCompartments info).length) (h2 : i < info.boxes.length) :
    (buildCompartments info).get ⟨i, h1⟩
      = mkCompartment info.total_boxes i (info.boxes.get ⟨i, h2⟩) := by
  have h1b : i < (buildCompartmentsFrom info.total_boxes 0 info.boxes).length := h1
  have hq := buildCompartmentsFrom_getElem info.total_boxes info.boxes 0 i
  rw [List.getElem?_eq_getElem h1b, List.getElem?_eq_getElem h2] at hq
  simp only [Option.map_some'] at hq
  have hv := Option.some.inj hq
  simpa [List.get_eq_getElem, Nat.zero_add] using hv

/-- The compartments of a capture record have one entry per box. -/
theorem buildCapture_compartments_length (img : ProcessedImage) :
    (buildCapture img).compartments.length = img.boxes_info.boxes.length :=
  buildCompartments_length img.boxes_info

/-! ### Claim theorems -/

/-- Claim C1: for every processed image, the defects_count computed when
approving a batch equals empty_boxes + multiple_pins_boxes + invalid_pins
+ critical_pins + rejected_shafts, a missing classification contributing
0; on the six-compartment scenario image (1 empty box, 1 multiple-pin
box, no bad pins, no shafts) the count is 2. -/
theorem defectsCount_eq_sum :
    (∀ img : ProcessedImage,
      (buildCapture img).defects_count
        = emptyBoxesOf img + multipleBoxesOf img + invalidPinsOf img
            + criticalPinsOf img + rejectedShaftsOf img)
    ∧ (buildCapture scenarioImage).defects_count = 2 :=
  ⟨fun _ => rfl, by decide⟩

/-- Claim C2: the is_valid field of a capture record built at batch
approval is true exactly when its defects_count is 0. -/
theorem isValid_iff_no_defects (img : ProcessedImage) :
    (buildCapture img).is_valid = true ↔ (buildCapture img).defects_count = 0 :=
  decide_eq_true_iff

/-- Claim C3: the compartment at 0-based index i of a capture gets
grid_col = i mod ceil(sqrt(total_boxes)) and
grid_row = i div ceil(sqrt(total_boxes)). -/
theorem grid_assignment (img : ProcessedImage) (i : Nat)
    (h1 : i < (buildCapture img).compartments.length)
    (h2 : i < img.boxes_info.boxes.length) :
    ((buildCapture img).compartments.get ⟨i, h1⟩).grid_col
        = i % ceilSqrt img.boxes_info.total_boxes
    ∧ ((buildCapture img).compartments.get ⟨i, h1⟩).grid_row
        = i / ceilSqrt img.boxes_info.total_boxes := by
  have hg : (buildCapture img).compartments.get ⟨i, h1⟩
      = mkCompartment img.boxes_info.total_boxes i (img.boxes_info.boxes.get ⟨i, h2⟩) :=
    buildCompartments_get img.boxes_info i h1 h2
  rw [hg]
  exact ⟨rfl, rfl⟩

/-- Witness for C3: on the nine-box image (ceil(sqrt(9)) = 3 columns),
index 4 maps to row 1, col 1 and index 8 maps to row 2, col 2. -/
theorem grid_assignment_witness :
    ((buildCapture nineBoxImage).compartments.get ⟨4, by decide⟩).grid_row = 1
    ∧ ((buildCapture nineBoxImage).compartments.get ⟨4, by decide⟩).grid_col = 1
    ∧ ((buildCapture nineBoxImage).compartments.get ⟨8, by decide⟩).grid_row = 2
    ∧ ((buildCapture nineBoxImage).compartments.get ⟨8, by decide⟩).grid_col = 2 := by
  have h4 := grid_assignment nineBoxImage 4 (by decide) (by decide)
  have h8 := grid_assignment nineBoxImage 8 (by decide) (by decide)
  have hc : ceilSqrt nineBoxImage.boxes_info.total_boxes = 3 := ceilSqrt_nine
  exact ⟨h4.2.trans (by rw [hc]), h4.1.trans (by rw [hc]),
         h8.2.trans (by rw [hc]), h8.1.trans (by rw [hc])⟩

/-- Claim C4: all five defect flags of a capture record are pure
functions of the counts: present exactly when the respective count is
positive (pins_damaged is the pins_damaged_yellow tally of the source). -/
theorem defect_flags_from_counts (img : ProcessedImage) :
    (buildCapture img).has_missing_pins = decide (emptyBoxesOf img > 0)
    ∧ (buildCapture img).has_extra_pins = decide (multipleBoxesOf img > 0)
    ∧ (buildCapture img).has_damaged_pins = decide (damagedYellowOf img > 0)
    ∧ (buildCapture img).has_wrong_color_pins = decide (wrongColorOf img > 0)
    ∧ (buildCapture img).has_shaft_defects = decide (rejectedShaftsOf img > 0) :=
  ⟨rfl, rfl, rfl, rfl, rfl⟩

/-- Claim C5: a compartment record is valid exactly when its box has
occupancy status single, and has_defect is the complement of is_valid. -/
theorem compartment_validity (img : ProcessedImage) (i : Nat)
    (h1 : i < (buildCapture img).compartments.length)
    (h2 : i < img.boxes_info.boxes.length) :
    ((buildCapture img).compartments.get ⟨i, h1⟩).is_valid
        = decide ((img.boxes_info.boxes.get ⟨i, h2⟩).status = BoxStatus.single)
    ∧ ((buildCapture img).compartments.get ⟨i, h1⟩).has_defect
        = !((buildCapture img).compartments.get ⟨i, h1⟩).is_valid := by
  have hg : (buildCapture img).compartments.get ⟨i, h1⟩
      = mkCompartment img.boxes_info.total_boxes i (img.boxes_info.boxes.get ⟨i, h2⟩) :=
    buildCompartments_get img.boxes_info i h1 h2
  rw [hg]
  exact ⟨rfl, decide_not⟩

/-- Witness for C5: in the six-compartment scenario, the empty box at
index 0 yields an invalid, defective compartment, the single-pin box at
index 2 a valid one. -/
theorem compartment_validity_witness :
    ((buildCapture scenarioImage).compartments.get ⟨0, by decide⟩).is_valid = false
    ∧ ((buildCapture scenarioImage).compartments.get ⟨0, by decide⟩).has_defect = true
    ∧ ((buildCapture scenarioImage).compartments.get ⟨2, by decide⟩).is_valid = true
    ∧ ((buildCapture scenarioImage).compartments.get ⟨2, by decide⟩).has_defect = false := by
  have h0 := compartment_validity scenarioImage 0 (by decide) (by decide)
  have h2 := compartment_validity scenarioImage 2 (by decide) (by decide)
  refine ⟨h0.1.trans (by decide), ?_, h2.1.trans (by decide), ?_⟩
  · rw [h0.2, h0.1]; decide
  · rw [h2.2, h2.1]; decide

/-- Claim C7: an image whose shaft analysis found zero shafts, or whose
shaft classification is absent, is not treated as an error at batch
approval: it contributes 0 rejected shafts, its has_shaft_defects flag
is false, and it is valid whenever the remaining counts are zero. -/
theorem zero_shafts_not_error (img : ProcessedImage)
    (hshaft : img.shaft_classification = none
      ∨ ∃ sc : ShaftClassification, img.shaft_classification = some sc
          ∧ sc.total_shafts = 0 ∧ sc.rejected_shafts ≤ sc.total_shafts) :
    rejectedShaftsOf img = 0
    ∧ (buildCapture img).has_shaft_defects = false
    ∧ (emptyBoxesOf img = 0 → multipleBoxesOf img = 0 → invalidPinsOf img = 0 →
        criticalPinsOf img = 0 → (buildCapture img).is_valid = true) := by
  have h0 : rejectedShaftsOf img = 0 := by
    rcases hshaft with h | ⟨sc, hsc, ht, hr⟩
    · simp [rejectedShaftsOf, h]
    · simp only [rejectedShaftsOf, hsc, Option.map_some', Option.getD_some]
      omega
  refine ⟨h0, ?_, ?_⟩
  · have hd : (buildCapture img).has_shaft_defects = decide (rejectedShaftsOf img > 0) := rfl
    rw [hd, h0]
    decide
  · intro h1 h2 h3 h4
    show decide (emptyBoxesOf img + multipleBoxesOf img + invalidPinsOf img
        + criticalPinsOf img + rejectedShaftsOf img = 0) = true
    rw [h1, h2, h3, h4, h0]
    decide

/-- Witness for C7: the nine-box image has a shaft classification with
total_shafts = 0 and is valid. -/
theorem zero_shafts_not_error_witness :
    rejectedShaftsOf nineBoxImage = 0
    ∧ (buildCapture nineBoxImage).has_shaft_defects = false
    ∧ (buildCapture nineBoxImage).is_valid = true := by
  have h := zero_shafts_not_error nineBoxImage
    (Or.inr ⟨_, rfl, rfl, Nat.le_refl 0⟩)
  exact ⟨h.1, h.2.1, h.2.2 rfl rfl rfl rfl⟩

/-- Claim C8: capture construction is deterministic — it is a pure
function of the processed-image list, so equal inputs give equal capture
lists. -/
theorem capture_build_deterministic (l1 l2 : List ProcessedImage) (h : l1 = l2) :
    capturesData l1 = capturesData l2 := by
  rw [h]

/-- Witness for C8: two runs on the scenario image agree. -/
theorem capture_build_deterministic_witness :
    capturesData [scenarioImage] = capturesData [scenarioImage] :=
  capture_build_deterministic [scenarioImage] [scenarioImage] rfl

/-- Claim C9: the has_structure_damage field of every capture record is
the constant false, and defects_count is exactly the five-term sum, so
structure damage contributes to neither the count nor validity. -/
theorem structure_damage_always_false (img : ProcessedImage) :
    (buildCapture img).has_structure_damage = false
    ∧ (buildCapture img).defects_count
        = emptyBoxesOf img + multipleBoxesOf img + invalidPinsOf img
            + criticalPinsOf img + rejectedShaftsOf img :=
  ⟨rfl, rfl⟩

/-- Counterexample for C6: with 3 captures of which 1 is valid, the KPI
card shows 33.33 percent (toFixed(2)), which differs from the ratio
expressed with one decimal place (33.3) and is itself not a one-decimal
value. -/
theorem dashboard_percent_counterexample :
    kpiSuccessRate (countValid thirdValidCaptures) thirdValidCaptures.length
        ≠ round1 (((countValid thirdValidCaptures : Rat)
            / (thirdValidCaptures.length : Rat)) * 100)
    ∧ ¬ ∃ z : Int, kpiSuccessRate (countValid thirdValidCaptures)
        thirdValidCaptures.length = (z : Rat) / 10 := by
  have h1 : kpiSuccessRate (countValid thirdValidCaptures) thirdValidCaptures.length
      = 3333 / 100 := by with_unfolding_all rfl
  have h2 : round1 (((countValid thirdValidCaptures : Rat)
      / (thirdValidCaptures.length : Rat)) * 100) = 333 / 10 := by with_unfolding_all rfl
  constructor
  · rw [h1, h2]
    norm_num
  · rintro ⟨z, hz⟩
    rw [h1] at hz
    rw [div_eq_div_iff (by norm_num) (by norm_num)] at hz
    have hzz : (33330 : Int) = z * 100 := by exact_mod_cast hz
    omega

/-- Amended C6: the validity-distribution value of getDashboardMetrics
is the valid ratio times 100 rounded to ONE decimal place (a value z/10,
0 on an empty capture list), while the KPI-card success rate is the same
ratio times 100 rounded to TWO decimal places. -/
theorem dashboard_percent_amended (cs : List DbCapture) (h : cs ≠ []) :
    dashValidValue cs = round1 (((countValid cs : Rat) / (cs.length : Rat)) * 100)
    ∧ kpiSuccessRate (countValid cs) cs.length
        = round2 (((countValid cs : Rat) / (cs.length : Rat)) * 100)
    ∧ (∃ z : Int, dashValidValue cs = (z : Rat) / 10)
    ∧ dashValidValue [] = 0 ∧ kpiSuccessRate 0 0 = 0 := by
  have hl : cs.length > 0 := List.length_pos.mpr h
  refine ⟨?_, ?_, ?_, ?_, ?_⟩
  · rw [dashValidValue, validPercentage, if_pos hl]
  · rw [kpiSuccessRate, if_pos hl]
  · exact ⟨ratFloor (validPercentage cs * 10 + 1 / 2), rfl⟩
  · with_unfolding_all rfl
  · with_unfolding_all rfl

/-- Witness for the amended C6 at the 1-of-3 capture list. -/
theorem dashboard_percent_witness :
    dashValidValue thirdValidCaptures = 333 / 10
    ∧ kpiSuccessRate (countValid thirdValidCaptures) thirdValidCaptures.length
        = 3333 / 100 := by
  have h := dashboard_percent_amended thirdValidCaptures (by decide)
  exact ⟨h.1.trans (by with_unfolding_all rfl),
         h.2.1.trans (by with_unfolding_all rfl)⟩

/-- Counterexample for C10: on boxes_info with 3 boxes and 1 occupied,
getOccupancyRate returns 33.3 (the toFixed(1) rounding), not the exact
ratio times 100, which is 100/3. -/
theorem rate_helpers_counterexample :
    getOccupancyRate (some thirdBoxesInfo)
      ≠ ((thirdBoxesInfo.single_pin_boxes : Rat) + (thirdBoxesInfo.multiple_pins_boxes : Rat))
          / (thirdBoxesInfo.total_boxes : Rat) * 100 := by
  have h1 : getOccupancyRate (some thirdBoxesInfo) = 333 / 10 := by
    with_unfolding_all rfl
  have h2 : ((thirdBoxesInfo.single_pin_boxes : Rat) + (thirdBoxesInfo.multiple_pins_boxes : Rat))
      / (thirdBoxesInfo.total_boxes : Rat) * 100 = 100 / 3 := by
    with_unfolding_all rfl
  rw [h1, h2]
  norm_num

/-- Amended C10: each rate helper of the results page is total — it
returns 0 when its input object is absent or its denominator is zero,
and otherwise the corresponding ratio times 100 rounded to one decimal
place. -/
theorem rate_helpers_total (bi : BoxesInfo) (pc : PinClassification)
    (sc : ShaftClassification) (hb : 0 < bi.total_boxes)
    (hp : 0 < pc.total_pins) (hs : 0 < sc.total_shafts) :
    getOccupancyRate (some bi)
        = round1 (((bi.single_pin_boxes : Rat) + (bi.multiple_pins_boxes : Rat))
            / (bi.total_boxes : Rat) * 100)
    ∧ getEfficiencyRate (some bi)
        = round1 ((bi.single_pin_boxes : Rat) / (bi.total_boxes : Rat) * 100)
    ∧ getPinQualityRate (some pc)
        = round1 ((pc.valid_pins : Rat) / (pc.total_pins : Rat) * 100)
    ∧ getShaftQualityRate (some sc)
        = round1 ((sc.approved_shafts : Rat) / (sc.total_shafts : Rat) * 100)
    ∧ getOccupancyRate none = 0 ∧ getEfficiencyRate none = 0
    ∧ getPinQualityRate none = 0 ∧ getShaftQualityRate none = 0
    ∧ (∀ bi2 : BoxesInfo, bi2.total_boxes = 0 →
        getOccupancyRate (some bi2) = 0 ∧ getEfficiencyRate (some bi2) = 0)
    ∧ (∀ pc2 : PinClassification, pc2.total_pins = 0 →
        getPinQualityRate (some pc2) = 0)
    ∧ (∀ sc2 : ShaftClassification, sc2.total_shafts = 0 →
        getShaftQualityRate (some sc2) = 0) := by
  refine ⟨?_, ?_, ?_, ?_, rfl, rfl, rfl, rfl, ?_, ?_, ?_⟩
  · simp only [getOccupancyRate]
    rw [if_neg (by omega)]
  · simp only [getEfficiencyRate]
    rw [if_neg (by omega)]
  · simp only [getPinQualityRate]
    rw [if_neg (by omega)]
  · simp only [getShaftQualityRate]
    rw [if_neg (by omega)]
  · intro bi2 h2
    exact ⟨by simp [getOccupancyRate, h2], by simp [getEfficiencyRate, h2]⟩
  · intro pc2 h2
    simp [getPinQualityRate, h2]
  · intro sc2 h2
    simp [getShaftQualityRate, h2]

/-- Witness for the amended C10 at concrete inputs. -/
theorem rate_helpers_witness :
    getOccupancyRate (some thirdBoxesInfo) = 333 / 10
    ∧ getPinQualityRate (some scenarioPinClassification) = 100
    ∧ getShaftQualityRate (some halfShaftClassification) = 50
    ∧ getOccupancyRate none = 0 := by
  have h := rate_helpers_total thirdBoxesInfo scenarioPinClassification
    halfShaftClassification (by decide) (by decide) (by decide)
  exact ⟨h.1.trans (by with_unfolding_all rfl),
         h.2.2.1.trans (by with_unfolding_all rfl),
         h.2.2.2.1.trans (by with_unfolding_all rfl),
         h.2.2.2.2.1⟩

end HawkEye
